import Mathlib

/-!
Shallow embedding of the Nano-Banana MCP server (`src/index.ts`), an MCP
adapter exposing Gemini image generation/editing as callable tools, together
with theorems checking the natural-language specification against it.

Modelling conventions:
* Filesystem access is a record of pure functions (`Fs`): `resolve` models
  Node `path.resolve`, `stat` models `fs.stat`/`fs.access` (returning `none`
  when the call would reject), `read` models `fs.readFile` returning the
  base64 rendering of the file content (`buffer.toString("base64")`), or the
  thrown error message.
* The remote Gemini capability (`genAI.models.generateContent`) is a pure
  function parameter (`Provider`) from model id and request contents to
  either a response or a thrown error message.
* Fresh artifact file names (timestamp + random id in `saveImage`) are
  modelled by a name supply `names : Nat → String`, applied to the number of
  images saved so far in the current call.  File writes are recorded in a
  write log `(path, base64 payload)`; the actual byte-level base64 decoding
  performed by `Buffer.from(data, "base64")` is not modelled.
* JavaScript truthiness tests on strings (`if (part.text)`, `if (!model)`,
  `if (envApiKey)`, `mimeType || "image/png"`) are modelled as emptiness
  tests, which is exactly their semantics on `string | undefined` values.
* `McpError` carries the numeric JSON-RPC code and the raw message; its
  JavaScript `message` property (used when a caught `McpError` is turned
  into a warning string) is `"MCP error <code>: <msg>"`, reproduced by
  `errMessage`.
-/

namespace NanoBanana

/-- JSON-RPC error codes used through `@modelcontextprotocol/sdk`:
`InvalidRequest = -32600`, `MethodNotFound = -32601`,
`InvalidParams = -32602`, `InternalError = -32603`. -/
structure McpErr where
  code : Int
  msg : String
deriving DecidableEq, Repr

/-- The JavaScript `message` property of an `McpError`:
the SDK constructor prefixes the code. -/
def errMessage (e : McpErr) : String :=
  "MCP error " ++ toString e.code ++ ": " ++ e.msg

def invalidParams (m : String) : McpErr := ⟨-32602, m⟩

def invalidRequest (m : String) : McpErr := ⟨-32600, m⟩

def internalErr (m : String) : McpErr := ⟨-32603, m⟩

-- Constants from the top of `src/index.ts`.

def DEFAULT_MODEL : String := "gemini-2.5-flash-image"

def SUPPORTED_MODELS : List String :=
  [DEFAULT_MODEL, "gemini-3-pro-image-preview"]

/-- `20 * 1024 * 1024` bytes. -/
def MAX_IMAGE_SIZE_BYTES : Nat := 20 * 1024 * 1024

def ALLOWED_IMAGE_EXTENSIONS : List String :=
  [".jpg", ".jpeg", ".png", ".webp", ".gif"]

def CONFIG_FILE_NAME : String := ".nano-banana-config.json"

-- String helpers modelling the Node `path` functions actually used.

/-- Characters after the last `/` (the POSIX basename). -/
def basenameChars (cs : List Char) : List Char :=
  (cs.reverse.takeWhile (fun c => c ≠ '/')).reverse

/-- Model of Node `path.extname` on POSIX paths: the suffix of the basename
from its last `.`, or empty when there is no dot or the only dot is the
leading character (dotfiles have no extension). -/
def extnameChars (cs : List Char) : List Char :=
  let base := basenameChars cs
  match base.reverse.findIdx? (fun c => c = '.') with
  | none => []
  | some i =>
      let dotPos := base.length - 1 - i
      if dotPos = 0 then [] else base.drop dotPos

def extname (p : String) : String := String.mk (extnameChars p.data)

/-- Model of JavaScript `String.prototype.toLowerCase` (ASCII-faithful). -/
def toLowerStr (s : String) : String := String.mk (s.data.map Char.toLower)

-- Filesystem and provider models.

/-- Result of a successful `fs.stat`. -/
structure Stats where
  size : Nat
  mtimeStr : String
deriving DecidableEq, Repr

/-- Pure model of the filesystem operations the server performs.
`resolve` models `path.resolve`; `stat p = none` models `fs.stat`/`fs.access`
rejecting at `p`; `read` models `fs.readFile(p)` followed by
`buffer.toString("base64")`, or the thrown error's message. -/
structure Fs where
  resolve : String → String
  stat : String → Option Stats
  read : String → Except String String

/-- `Math.round(n / 1024 / 1024)` for a byte count `n` (round half up). -/
def roundMB (n : Nat) : Nat := (n + 524288) / 1048576

/-- `Math.round(n / 1024)` for a byte count `n` (round half up). -/
def roundKB (n : Nat) : Nat := (n + 512) / 1024

def unsupportedFormatMsg (ext : String) : String :=
  "Unsupported image format \"" ++ ext ++ "\". Allowed: "
    ++ String.intercalate ", " ALLOWED_IMAGE_EXTENSIONS

def notFoundMsg (filePath : String) : String :=
  "Image file not found: " ++ filePath

def tooLargeMsg (size : Nat) : String :=
  "Image file too large (" ++ toString (roundMB size) ++ "MB). Maximum: "
    ++ toString (MAX_IMAGE_SIZE_BYTES / 1024 / 1024) ++ "MB"

/-- `validateImagePath` (src/index.ts:238-265): resolve the path, lower-case
its extension and check the allow-list, stat the resolved path, check the
size cap.  A thrown `McpError` is the `.error` case. -/
def validateImagePath (fs : Fs) (filePath : String) : Except McpErr Unit :=
  let resolved := fs.resolve filePath
  let ext := toLowerStr (extname resolved)
  if ¬ (ALLOWED_IMAGE_EXTENSIONS.contains ext) then
    .error (invalidParams (unsupportedFormatMsg ext))
  else
    match fs.stat resolved with
    | none => .error (invalidParams (notFoundMsg filePath))
    | some stats =>
        if stats.size > MAX_IMAGE_SIZE_BYTES then
          .error (invalidParams (tooLargeMsg stats.size))
        else
          .ok ()

def unsupportedModelMsg (m : String) : String :=
  "Unsupported model \"" ++ m ++ "\". Supported: "
    ++ String.intercalate ", " SUPPORTED_MODELS

/-- `resolveModel` (src/index.ts:267-276).  `if (!model)` is JavaScript
truthiness: an absent or empty string falls back to the default model. -/
def resolveModel (model : Option String) : Except McpErr String :=
  match model with
  | none => .ok DEFAULT_MODEL
  | some m =>
      if m = "" then .ok DEFAULT_MODEL
      else if SUPPORTED_MODELS.contains m then .ok m
      else .error (invalidParams (unsupportedModelMsg m))

/-- `getMimeType` (src/index.ts:630-640): fixed extension-to-mime mapping
with `image/jpeg` as the default of the total function. -/
def getMimeType (filePath : String) : String :=
  let ext := toLowerStr (extname filePath)
  if ext = ".jpg" then "image/jpeg"
  else if ext = ".jpeg" then "image/jpeg"
  else if ext = ".png" then "image/png"
  else if ext = ".webp" then "image/webp"
  else if ext = ".gif" then "image/gif"
  else "image/jpeg"

-- Server state and configuration.

inductive ConfigSource where
  | environment
  | config_file
  | not_configured
deriving DecidableEq, Repr

/-- The mutable fields of the `NanoBananaMCP` class: `config` holds the
parsed `geminiApiKey`, `genAI` mirrors the constructed `GoogleGenAI` client
(modelled by the key it was built with), `lastImagePath` is the session
state, `configSource` the credential source label. -/
structure NanoState where
  config : Option String
  genAI : Option String
  lastImagePath : Option String
  configSource : ConfigSource
deriving DecidableEq, Repr

def initialState : NanoState := ⟨none, none, none, .not_configured⟩

/-- `ensureConfigured` (src/index.ts:626-628). -/
def ensureConfigured (st : NanoState) : Bool :=
  st.config.isSome && st.genAI.isSome

/-- A top-level JSON value as far as the config schema can see it: an object
whose fields are strings or something else, or a non-object. -/
inductive JVal where
  | str (s : String)
  | other
deriving DecidableEq, Repr

inductive Json where
  | obj (fields : List (String × JVal))
  | nonObj
deriving DecidableEq, Repr

/-- `ConfigSchema.parse` on a parsed JSON value:
`z.object({ geminiApiKey: z.string().min(1) })` — the field must be present,
a string, and non-empty; unknown fields are stripped. -/
def configSchemaParse (j : Json) : Option String :=
  match j with
  | .obj fields =>
      match fields.lookup "geminiApiKey" with
      | some (.str s) => if 1 ≤ s.length then some s else none
      | _ => none
  | .nonObj => none

/-- The config-file fallback of `loadConfig` (src/index.ts:687-698):
`file = none` models an absent/unreadable file or malformed JSON (the
`readFile`/`JSON.parse` throw); schema failure likewise lands in the catch,
which only sets the source label to `not_configured`. -/
def loadFromFile (file : Option Json) (st : NanoState) : NanoState :=
  match file with
  | some j =>
      match configSchemaParse j with
      | some k =>
          { st with config := some k, genAI := some k,
                    configSource := .config_file }
      | none => { st with configSource := .not_configured }
  | none => { st with configSource := .not_configured }

/-- `loadConfig` (src/index.ts:673-699): environment variable first
(`if (envApiKey)` is truthiness, so an empty value is skipped; a parse
failure falls through), then the config record. -/
def loadConfig (env : Option String) (file : Option Json) (st : NanoState) :
    NanoState :=
  match env with
  | some k =>
      if k ≠ "" then
        if 1 ≤ k.length then
          { st with config := some k, genAI := some k,
                    configSource := .environment }
        else loadFromFile file st
      else loadFromFile file st
  | none => loadFromFile file st

-- Provider request/response shapes.

/-- A request content part, as in the `ContentPart` union of the source:
either inline image data (base64 payload + mime type) or text. -/
inductive ContentPart where
  | inlineData (data : String) (mimeType : String)
  | text (s : String)
deriving DecidableEq, Repr

/-- The `contents` argument of `generateContent`: `generateImage` passes the
bare prompt string, `editImage` passes a single-content parts array. -/
inductive ProviderContents where
  | textOnly (prompt : String)
  | parts (ps : List ContentPart)
deriving DecidableEq, Repr

structure InlineData where
  data : Option String
  mimeType : Option String
deriving DecidableEq, Repr

structure RespPart where
  text : Option String
  inlineData : Option InlineData
deriving DecidableEq, Repr

structure RespContent where
  parts : Option (List RespPart)
deriving DecidableEq, Repr

structure Candidate where
  content : Option RespContent
deriving DecidableEq, Repr

structure GenResponse where
  candidates : Option (List Candidate)
deriving DecidableEq, Repr

/-- The remote capability `genAI.models.generateContent`, as a pure
function of model id and request contents; `.error` models a thrown
transport/provider error with its message. -/
def Provider : Type :=
  String → ProviderContents → Except String GenResponse

/-- `response.candidates?.[0]?.content?.parts` with the surrounding
truthiness guard: the parts walked by `buildImageResponse`, empty when any
link of the optional chain is absent. -/
def firstParts (r : GenResponse) : List RespPart :=
  match r.candidates with
  | some (c :: _) =>
      match c.content with
      | some ct => ct.parts.getD []
      | none => []
  | _ => []

/-- Accumulator of the part-walking loop in `buildImageResponse`:
concatenated text, saved file paths, returned image content items
`(data, mimeType)`, file-write log `(path, base64 payload)`, and the last
`this.lastImagePath` assignment made so far (if any). -/
structure PartsAcc where
  textContent : String
  savedFiles : List String
  images : List (String × String)
  writes : List (String × String)
  last : Option String
deriving DecidableEq, Repr

def initAcc : PartsAcc := ⟨"", [], [], [], none⟩

/-- One iteration of the `for (const part of ...)` loop in
`buildImageResponse` (src/index.ts:294-310).  `if (part.text)` and
`if (part.inlineData?.data)` are truthiness tests, so empty strings are
skipped; `part.inlineData.mimeType || "image/png"` defaults absent or empty
mime types.  The fresh file name produced by `saveImage` is
`names` applied to the number of images saved so far.  `saveImage`'s
awaited `fs.writeFile` is treated as succeeding here; `stepPartW` below
makes the write outcome explicit, and this variant is its all-writes-succeed
projection (`stepPartW_total`). -/
def stepPart (names : Nat → String) (acc : PartsAcc) (p : RespPart) :
    PartsAcc :=
  let acc1 :=
    match p.text with
    | some t => if t = "" then acc else
        { acc with textContent := acc.textContent ++ t }
    | none => acc
  match p.inlineData with
  | some d =>
      match d.data with
      | some dat =>
          if dat = "" then acc1
          else
            let fp := names acc1.savedFiles.length
            let mt := match d.mimeType with
                      | some m => if m = "" then "image/png" else m
                      | none => "image/png"
            { acc1 with
                savedFiles := acc1.savedFiles ++ [fp],
                images := acc1.images ++ [(dat, mt)],
                writes := acc1.writes ++ [(fp, dat)],
                last := some fp }
      | none => acc1
  | none => acc1

def noImageNote : String :=
  "\n\nNote: No image was generated. The model may have returned only text."

/-- The `statusText` assembled in `buildImageResponse`
(src/index.ts:313-329). -/
def mkStatusText (pfx promptText textContent : String)
    (warnings savedFiles : List String) : String :=
  let s := "Image " ++ (if pfx = "generated" then "generated" else "edited")
    ++ " with nano-banana!\n\nPrompt: \"" ++ promptText ++ "\""
  let s := if textContent = "" then s
    else s ++ "\n\nDescription: " ++ textContent
  let s := if warnings.length > 0 then
      s ++ "\n\nWarnings:\n"
        ++ String.intercalate "\n" (warnings.map (fun w => "- " ++ w))
    else s
  if savedFiles.length > 0 then
    s ++ "\n\nImage saved to:\n"
      ++ String.intercalate "\n" (savedFiles.map (fun f => "- " ++ f))
      ++ "\n\nTo modify this image, use: continue_editing"
      ++ "\nTo check current image info, use: get_last_image_info"
  else
    s ++ noImageNote

/-- The `CallToolResult` of a generate/edit call: the status text, the saved
artifact paths, the returned image content items, the file-write log, and
the description text accumulated from the response's text parts. -/
structure BuildOut where
  statusText : String
  textContent : String
  savedFiles : List String
  images : List (String × String)
  writes : List (String × String)
deriving DecidableEq, Repr

/-- `buildImageResponse` (src/index.ts:280-334): walk the first candidate's
parts, concatenating text and saving each image part, then assemble the
status text; `this.lastImagePath` ends at the last saved path, or is left
unchanged when no image part occurred.  Artifact writes are treated as
succeeding; `buildImageResponseW` below models their failure, and this
variant is its all-writes-succeed projection
(`buildImageResponseW_total`). -/
def buildImageResponse (names : Nat → String) (resp : GenResponse)
    (pfx promptText : String) (warnings : List String) (st : NanoState) :
    BuildOut × NanoState :=
  let acc := (firstParts resp).foldl (stepPart names) initAcc
  let statusText :=
    mkStatusText pfx promptText acc.textContent warnings acc.savedFiles
  (⟨statusText, acc.textContent, acc.savedFiles, acc.images, acc.writes⟩,
   { st with lastImagePath :=
       match acc.last with
       | some fp => some fp
       | none => st.lastImagePath })

-- Tool implementations.

def notConfiguredErr : McpErr :=
  invalidRequest
    "Gemini API token not configured. Use configure_gemini_token first."

def noPriorImageErr : McpErr :=
  invalidRequest
    "No previous image found. Please generate or edit an image first."

def stalePriorImageErr (p : String) : McpErr :=
  invalidRequest
    ("Last image file not found at: " ++ p
      ++ ". Please generate a new image first.")

def getConfigPath (home : String) : String :=
  home ++ "/" ++ CONFIG_FILE_NAME

def configureOkText : String :=
  "Gemini API token configured successfully. You can now use nano-banana image generation features."

/-- Outcome of a `configure_gemini_token` call: the protocol result, the
config-file write log, and the server state afterwards. -/
structure ConfigureOut where
  result : Except McpErr String
  writes : List (String × String)
  state : NanoState
deriving Repr

/-- `configureGeminiToken` (src/index.ts:354-385).  `writeFile` models the
`fs.writeFile` in `saveConfig`; note the source installs the in-memory
credential *before* awaiting the file write, and a write failure is
re-thrown and wrapped by the request handler into
`InternalError "Tool execution failed: ..."`. -/
def configureGeminiToken (writeFile : String → Except String Unit)
    (home : String) (st : NanoState) (apiKey : String) : ConfigureOut :=
  if 1 ≤ apiKey.length then
    let st2 := { st with config := some apiKey, genAI := some apiKey,
                         configSource := .config_file }
    match writeFile (getConfigPath home) with
    | .ok _ =>
        ⟨.ok configureOkText, [(getConfigPath home, apiKey)], st2⟩
    | .error m =>
        ⟨.error (internalErr ("Tool execution failed: " ++ m)), [], st2⟩
  else
    ⟨.error (invalidParams "Invalid API key: Gemini API key is required"),
     [], st⟩

/-- `generateImage` (src/index.ts:387-421): configured check, model
resolution, provider call with the bare prompt, shared reassembly. -/
def generateImage (names : Nat → String) (provider : Provider)
    (st : NanoState) (prompt : String) (model : Option String) :
    Except McpErr BuildOut × NanoState :=
  if ¬ (ensureConfigured st) then (.error notConfiguredErr, st)
  else
    match resolveModel model with
    | .error e => (.error e, st)
    | .ok m =>
        match provider m (.textOnly prompt) with
        | .error msg =>
            (.error (internalErr ("Failed to generate image: " ++ msg)), st)
        | .ok resp =>
            let r := buildImageResponse names resp "generated" prompt [] st
            (.ok r.1, r.2)

def skippedWarning (refPath reason : String) : String :=
  "Skipped reference image \"" ++ refPath ++ "\": " ++ reason

/-- Validation plus load of one reference image (the `try` body of the
reference loop, src/index.ts:461-469): a thrown `McpError` surfaces its
JavaScript `message`, a read failure its own message. -/
def loadRef (fs : Fs) (refPath : String) : Except String ContentPart :=
  match validateImagePath fs refPath with
  | .error e => .error (errMessage e)
  | .ok _ =>
      match fs.read refPath with
      | .error m => .error m
      | .ok d => .ok (.inlineData d (getMimeType refPath))

/-- The reference-image loop of `editImage` (src/index.ts:458-476):
successfully loaded parts in input order, and one warning per failed
reference, in input order. -/
def processRefs (fs : Fs) : List String → List ContentPart × List String
  | [] => ([], [])
  | r :: rest =>
      let tail := processRefs fs rest
      match loadRef fs r with
      | .ok p => (p :: tail.1, tail.2)
      | .error m => (tail.1, skippedWarning r m :: tail.2)

/-- `editImage` (src/index.ts:423-503): configured check, model resolution,
hard validation of the primary image, read of the primary, the reference
loop, then the provider call on
`[primary, refs..., prompt]` and shared reassembly.  Non-`McpError` throws
inside the `try` (primary read, provider) are wrapped as
`Failed to edit image: ...`. -/
def editImage (fs : Fs) (names : Nat → String) (provider : Provider)
    (st : NanoState) (imagePath prompt : String)
    (referenceImages : Option (List String)) (model : Option String) :
    Except McpErr BuildOut × NanoState :=
  if ¬ (ensureConfigured st) then (.error notConfiguredErr, st)
  else
    match resolveModel model with
    | .error e => (.error e, st)
    | .ok m =>
        match validateImagePath fs imagePath with
        | .error e => (.error e, st)
        | .ok _ =>
            match fs.read imagePath with
            | .error msg =>
                (.error (internalErr ("Failed to edit image: " ++ msg)), st)
            | .ok dat =>
                let primary := ContentPart.inlineData dat
                  (getMimeType imagePath)
                let loaded := processRefs fs (referenceImages.getD [])
                let allParts :=
                  primary :: loaded.1 ++ [ContentPart.text prompt]
                match provider m (.parts allParts) with
                | .error msg =>
                    (.error (internalErr ("Failed to edit image: " ++ msg)),
                     st)
                | .ok resp =>
                    let r := buildImageResponse names resp "edited" prompt
                      loaded.2 st
                    (.ok r.1, r.2)

/-- `continueEditing` (src/index.ts:542-586): configured check, then the
session must hold a last image path, then the tracked file must still be
accessible, then delegate to `editImage` with that path as primary. -/
def continueEditing (fs : Fs) (names : Nat → String) (provider : Provider)
    (st : NanoState) (prompt : String)
    (referenceImages : Option (List String)) (model : Option String) :
    Except McpErr BuildOut × NanoState :=
  if ¬ (ensureConfigured st) then (.error notConfiguredErr, st)
  else
    match st.lastImagePath with
    | none => (.error noPriorImageErr, st)
    | some p =>
        if (fs.stat p).isSome then
          editImage fs names provider st p prompt referenceImages model
        else (.error (stalePriorImageErr p), st)

def noPriorImageInfoText : String :=
  "No previous image found.\n\nPlease generate or edit an image first."

def lastImageInfoText (p : String) (stats : Stats) : String :=
  "Last Image Information:\n\nPath: " ++ p ++ "\nFile Size: "
    ++ toString (roundKB stats.size) ++ " KB\nLast Modified: "
    ++ stats.mtimeStr ++ "\n\nUse continue_editing to make further changes."

def lastImageGoneText (p : String) : String :=
  "Last Image Information:\n\nPath: " ++ p
    ++ "\nStatus: File not found\n\nThe image file may have been moved or deleted. Please generate a new image."

/-- `getLastImageInfo` (src/index.ts:588-622): always returns an
informational text, never an error; a vanished file lands in the catch. -/
def getLastImageInfo (fs : Fs) (st : NanoState) : String :=
  match st.lastImagePath with
  | none => noPriorImageInfoText
  | some p =>
      match fs.stat p with
      | some stats => lastImageInfoText p stats
      | none => lastImageGoneText p

-- Fallible-write model of the reassembly loop.  `saveImage`
-- (src/index.ts:336-350) awaits `fs.writeFile`, which can reject; the
-- rejection propagates out of `buildImageResponse` with
-- `this.lastImagePath` already reassigned by every earlier image part.
-- The infallible `stepPart`/`buildImageResponse` above are the projection
-- of this model onto the all-writes-succeed path (`foldPartsW_total`,
-- `buildImageResponseW_total` below).

/-- One loop iteration with the `fs.writeFile` outcome made explicit
(`writeFile path payload`): a rejected write aborts the walk, carrying the
error message and the accumulator as it stood — in particular `last`, the
pending `this.lastImagePath` mutations of the earlier iterations.  The
`savedFiles.push` and `this.lastImagePath` assignments of the failing
iteration have not happened yet (src/index.ts:300-302). -/
def stepPartW (writeFile : String → String → Except String Unit)
    (names : Nat → String) (acc : PartsAcc) (p : RespPart) :
    Except (String × PartsAcc) PartsAcc :=
  let acc1 :=
    match p.text with
    | some t => if t = "" then acc else
        { acc with textContent := acc.textContent ++ t }
    | none => acc
  match p.inlineData with
  | some d =>
      match d.data with
      | some dat =>
          if dat = "" then .ok acc1
          else
            let fp := names acc1.savedFiles.length
            match writeFile fp dat with
            | .error msg => .error (msg, acc1)
            | .ok _ =>
                let mt := match d.mimeType with
                          | some m => if m = "" then "image/png" else m
                          | none => "image/png"
                .ok { acc1 with
                        savedFiles := acc1.savedFiles ++ [fp],
                        images := acc1.images ++ [(dat, mt)],
                        writes := acc1.writes ++ [(fp, dat)],
                        last := some fp }
      | none => .ok acc1
  | none => .ok acc1

/-- The part-walking loop with fallible writes: stops at the first rejected
write. -/
def foldPartsW (writeFile : String → String → Except String Unit)
    (names : Nat → String) :
    List RespPart → PartsAcc → Except (String × PartsAcc) PartsAcc
  | [], acc => .ok acc
  | p :: rest, acc =>
      match stepPartW writeFile names acc p with
      | .error e => .error e
      | .ok acc2 => foldPartsW writeFile names rest acc2

/-- `buildImageResponse` with fallible artifact writes: a rejected write
surfaces as the thrown error's message, and the state keeps the
`lastImagePath` mutations already performed by the successful earlier
image parts. -/
def buildImageResponseW (writeFile : String → String → Except String Unit)
    (names : Nat → String) (resp : GenResponse) (pfx promptText : String)
    (warnings : List String) (st : NanoState) :
    Except String BuildOut × NanoState :=
  match foldPartsW writeFile names (firstParts resp) initAcc with
  | .ok acc =>
      (.ok ⟨mkStatusText pfx promptText acc.textContent warnings
          acc.savedFiles,
        acc.textContent, acc.savedFiles, acc.images, acc.writes⟩,
       { st with lastImagePath :=
           match acc.last with
           | some fp => some fp
           | none => st.lastImagePath })
  | .error (msg, acc) =>
      (.error msg,
       { st with lastImagePath :=
           match acc.last with
           | some fp => some fp
           | none => st.lastImagePath })

/-- `generateImage` over the fallible-write reassembly: a write rejection
is caught by the non-`McpError` catch (src/index.ts:415-420) and wrapped as
`Failed to generate image: ...`, with the partially-mutated session state
persisting on the instance. -/
def generateImageW (writeFile : String → String → Except String Unit)
    (names : Nat → String) (provider : Provider) (st : NanoState)
    (prompt : String) (model : Option String) :
    Except McpErr BuildOut × NanoState :=
  if ¬ (ensureConfigured st) then (.error notConfiguredErr, st)
  else
    match resolveModel model with
    | .error e => (.error e, st)
    | .ok m =>
        match provider m (.textOnly prompt) with
        | .error msg =>
            (.error (internalErr ("Failed to generate image: " ++ msg)), st)
        | .ok resp =>
            match buildImageResponseW writeFile names resp "generated"
                prompt [] st with
            | (.ok out, st2) => (.ok out, st2)
            | (.error msg, st2) =>
                (.error (internalErr ("Failed to generate image: " ++ msg)),
                 st2)

/-- `editImage` over the fallible-write reassembly: a write rejection is
caught by the non-`McpError` catch (src/index.ts:496-502) and wrapped as
`Failed to edit image: ...`, with the partially-mutated session state
persisting. -/
def editImageW (writeFile : String → String → Except String Unit) (fs : Fs)
    (names : Nat → String) (provider : Provider) (st : NanoState)
    (imagePath prompt : String) (referenceImages : Option (List String))
    (model : Option String) : Except McpErr BuildOut × NanoState :=
  if ¬ (ensureConfigured st) then (.error notConfiguredErr, st)
  else
    match resolveModel model with
    | .error e => (.error e, st)
    | .ok m =>
        match validateImagePath fs imagePath with
        | .error e => (.error e, st)
        | .ok _ =>
            match fs.read imagePath with
            | .error msg =>
                (.error (internalErr ("Failed to edit image: " ++ msg)), st)
            | .ok dat =>
                let primary := ContentPart.inlineData dat
                  (getMimeType imagePath)
                let loaded := processRefs fs (referenceImages.getD [])
                let allParts :=
                  primary :: loaded.1 ++ [ContentPart.text prompt]
                match provider m (.parts allParts) with
                | .error msg =>
                    (.error (internalErr ("Failed to edit image: " ++ msg)),
                     st)
                | .ok resp =>
                    match buildImageResponseW writeFile names resp "edited"
                        prompt loaded.2 st with
                    | (.ok out, st2) => (.ok out, st2)
                    | (.error msg, st2) =>
                        (.error
                          (internalErr ("Failed to edit image: " ++ msg)),
                         st2)

-- Characterization of the part walk, used to state the reassembly claims.

/-- The text contributed by one response part (empty when absent). -/
def partTextOf (p : RespPart) : String := p.text.getD ""

/-- Concatenation of the text parts in order. -/
def textsOf : List RespPart → String
  | [] => ""
  | p :: rest => partTextOf p ++ textsOf rest

/-- The image payload a part carries, when it is image-bearing in the sense
of the loop's truthiness test (`part.inlineData?.data` present and
non-empty). -/
def partImageData (p : RespPart) : Option String :=
  match p.inlineData with
  | some d =>
      match d.data with
      | some s => if s = "" then none else some s
      | none => none
  | none => none

/-- The mime type reported for an image-bearing part
(`part.inlineData.mimeType || "image/png"`). -/
def partImageMime (p : RespPart) : String :=
  match p.inlineData with
  | some d =>
      match d.mimeType with
      | some m => if m = "" then "image/png" else m
      | none => "image/png"
  | none => "image/png"

/-- The image payloads of a part list, in order. -/
def imageDatas (ps : List RespPart) : List String :=
  ps.filterMap partImageData

/-- The `(data, mimeType)` content items of a part list, in order. -/
def imagePairs (ps : List RespPart) : List (String × String) :=
  ps.filterMap (fun p => (partImageData p).map (fun s => (s, partImageMime p)))

/-- The `n` fresh names the supply produces starting after `k` saves. -/
def newNames (names : Nat → String) (k n : Nat) : List String :=
  (List.range n).map (fun i => names (k + i))

/-- The response truncated to its first candidate. -/
def firstOnly (r : GenResponse) : GenResponse :=
  ⟨r.candidates.map (fun l => l.take 1)⟩

theorem newNames_succ (names : Nat → String) (k n : Nat) :
    newNames names k (n + 1) = names k :: newNames names (k + 1) n := by
  rw [newNames, newNames, List.range_succ_eq_map, List.map_cons,
    List.map_map]
  simp only [Nat.add_zero]
  congr 1
  apply List.map_congr_left
  intro i _
  simp only [Function.comp_apply, Nat.succ_eq_add_one]
  congr 1
  omega

theorem firstParts_firstOnly (r : GenResponse) :
    firstParts (firstOnly r) = firstParts r := by
  obtain ⟨cs⟩ := r
  cases cs with
  | none => rfl
  | some l => cases l with
    | nil => rfl
    | cons c rest => rfl

/-- `stepPart` rewritten by what the part contributes. -/
theorem stepPart_eq (names : Nat → String) (acc : PartsAcc) (p : RespPart) :
    stepPart names acc p =
      match partImageData p with
      | none => { acc with textContent := acc.textContent ++ partTextOf p }
      | some dat =>
          { textContent := acc.textContent ++ partTextOf p,
            savedFiles := acc.savedFiles ++ [names acc.savedFiles.length],
            images := acc.images ++ [(dat, partImageMime p)],
            writes := acc.writes ++ [(names acc.savedFiles.length, dat)],
            last := some (names acc.savedFiles.length) } := by
  obtain ⟨t, i⟩ := p
  cases t with
  | none =>
      cases i with
      | none => simp [stepPart, partTextOf, partImageData, String.append_empty]
      | some d =>
          obtain ⟨dd, dm⟩ := d
          cases dd with
          | none =>
              simp [stepPart, partTextOf, partImageData, String.append_empty]
          | some s =>
              by_cases hs : s = "" <;>
                simp [stepPart, partTextOf, partImageData, partImageMime, hs,
                  String.append_empty]
  | some t0 =>
      by_cases ht : t0 = "" <;>
      · cases i with
        | none =>
            simp [stepPart, partTextOf, partImageData, ht,
              String.append_empty]
        | some d =>
            obtain ⟨dd, dm⟩ := d
            cases dd with
            | none =>
                simp [stepPart, partTextOf, partImageData, ht,
                  String.append_empty]
            | some s =>
                by_cases hs : s = "" <;>
                  simp [stepPart, partTextOf, partImageData, partImageMime,
                    ht, hs, String.append_empty]

/-- Full characterization of the part-walking loop, for any starting
accumulator. -/
theorem foldl_stepPart_spec (names : Nat → String) :
    ∀ (ps : List RespPart) (acc : PartsAcc),
      (ps.foldl (stepPart names) acc).textContent
          = acc.textContent ++ textsOf ps ∧
      (ps.foldl (stepPart names) acc).savedFiles
          = acc.savedFiles
            ++ newNames names acc.savedFiles.length (imageDatas ps).length ∧
      (ps.foldl (stepPart names) acc).images = acc.images ++ imagePairs ps ∧
      (ps.foldl (stepPart names) acc).writes
          = acc.writes
            ++ List.zip
                (newNames names acc.savedFiles.length (imageDatas ps).length)
                (imageDatas ps) ∧
      (ps.foldl (stepPart names) acc).last
          = (if (imageDatas ps).length = 0 then acc.last
             else some (names
               (acc.savedFiles.length + ((imageDatas ps).length - 1)))) := by
  intro ps
  induction ps with
  | nil =>
      intro acc
      simp [textsOf, imageDatas, imagePairs, newNames, String.append_empty]
  | cons p rest ih =>
      intro acc
      rw [List.foldl_cons, stepPart_eq]
      cases hp : partImageData p with
      | none =>
          obtain ⟨h1, h2, h3, h4, h5⟩ :=
            ih { acc with textContent := acc.textContent ++ partTextOf p }
          refine ⟨?_, ?_, ?_, ?_, ?_⟩
          · rw [h1]
            simp [textsOf, String.append_assoc]
          · rw [h2]
            simp [imageDatas, List.filterMap_cons, hp]
          · rw [h3]
            simp [imagePairs, List.filterMap_cons, hp]
          · rw [h4]
            simp [imageDatas, List.filterMap_cons, hp]
          · rw [h5]
            simp [imageDatas, List.filterMap_cons, hp]
      | some dat =>
          obtain ⟨h1, h2, h3, h4, h5⟩ :=
            ih { textContent := acc.textContent ++ partTextOf p,
                 savedFiles := acc.savedFiles
                   ++ [names acc.savedFiles.length],
                 images := acc.images ++ [(dat, partImageMime p)],
                 writes := acc.writes
                   ++ [(names acc.savedFiles.length, dat)],
                 last := some (names acc.savedFiles.length) }
          have hdat : imageDatas (p :: rest) = dat :: imageDatas rest := by
            simp [imageDatas, List.filterMap_cons, hp]
          have hlen : (acc.savedFiles ++ [names acc.savedFiles.length]).length
              = acc.savedFiles.length + 1 := by simp
          refine ⟨?_, ?_, ?_, ?_, ?_⟩
          · rw [h1]
            simp [textsOf, String.append_assoc]
          · rw [h2, hlen, hdat]
            simp only [List.length_cons, newNames_succ, List.append_assoc,
              List.singleton_append]
          · rw [h3]
            simp [imagePairs, List.filterMap_cons, hp, List.append_assoc]
          · rw [h4, hlen, hdat]
            simp only [List.length_cons, newNames_succ, List.zip_cons_cons,
              List.append_assoc, List.singleton_append]
          · rw [h5, hlen, hdat]
            simp only [List.length_cons]
            rw [if_neg (Nat.succ_ne_zero (imageDatas rest).length)]
            by_cases h0 : (imageDatas rest).length = 0
            · rw [if_pos h0, h0]
              simp
            · rw [if_neg h0]
              have harith :
                  acc.savedFiles.length + 1 + ((imageDatas rest).length - 1)
                    = acc.savedFiles.length
                      + ((imageDatas rest).length + 1 - 1) := by
                omega
              rw [harith]

-- Concrete fixtures used to exercise the theorems on closed inputs.

/-- A deterministic fresh-name supply. -/
def namesW : Nat → String :=
  fun i => "/work/generated_imgs/img-" ++ toString i ++ ".png"

/-- A small filesystem: a valid primary image, a valid reference image, a
file of exactly the size cap, one a byte over, and nothing else. -/
def fsW : Fs :=
  { resolve := fun p => p,
    stat := fun p =>
      if p = "/a.png" then some ⟨100, "t0"⟩
      else if p = "/r1.png" then some ⟨200, "t1"⟩
      else if p = "/cap.png" then some ⟨20971520, "t2"⟩
      else if p = "/big.png" then some ⟨20971521, "t3"⟩
      else none,
    read := fun p =>
      if p = "/a.png" then .ok "QUFB"
      else if p = "/r1.png" then .ok "UlJS"
      else .error ("ENOENT: no such file or directory, open " ++ p) }

/-- A provider response holding a single text part and no image part. -/
def respTextOnly : GenResponse :=
  ⟨some [⟨some ⟨some [⟨some "A text", none⟩]⟩⟩]⟩

/-- A provider that always succeeds with the text-only response. -/
def provOK : Provider := fun _ _ => .ok respTextOnly

/-- A provider that always fails. -/
def provFail : Provider := fun _ _ => .error "boom"

/-- State after startup resolution picked the environment credential. -/
def stEnv : NanoState := ⟨some "k1", some "k1", none, .environment⟩

/-- A configured state whose tracked last image exists on `fsW`. -/
def stLast : NanoState := ⟨some "key", some "key", some "/a.png", .config_file⟩

/-- A configured state whose tracked last image has vanished from `fsW`. -/
def stStale : NanoState :=
  ⟨some "key", some "key", some "/gone.png", .config_file⟩

/-- An unconfigured state that still tracks a (vanished) last image. -/
def stUnconf : NanoState := ⟨none, none, some "/gone.png", .not_configured⟩

def writeOkFn : String → Except String Unit := fun _ => .ok ()

def writeFailFn : String → Except String Unit :=
  fun _ => .error "EACCES: permission denied"

/-- A provider response carrying two image parts and no text. -/
def respTwoImgs : GenResponse :=
  ⟨some [⟨some ⟨some [⟨none, some ⟨some "AAAA", some "image/png"⟩⟩,
                      ⟨none, some ⟨some "BBBB", none⟩⟩]⟩⟩]⟩

/-- A provider that always succeeds with the two-image response. -/
def provTwo : Provider := fun _ _ => .ok respTwoImgs

/-- An artifact-write function that succeeds on the first fresh path of
`namesW` and rejects on the second. -/
def writeFail2 : String → String → Except String Unit :=
  fun p _ =>
    if p = "/work/generated_imgs/img-1.png" then
      .error "ENOSPC: no space left on device"
    else .ok ()

-- State-preservation helper lemmas (everything but `lastImagePath`).

theorem buildImageResponse_snd_fields (names : Nat → String)
    (resp : GenResponse) (pfx promptText : String) (warnings : List String)
    (st : NanoState) :
    (buildImageResponse names resp pfx promptText warnings st).2.config
        = st.config
    ∧ (buildImageResponse names resp pfx promptText warnings st).2.genAI
        = st.genAI
    ∧ (buildImageResponse names resp pfx promptText warnings st).2.configSource
        = st.configSource :=
  ⟨rfl, rfl, rfl⟩

theorem generateImage_credential_frame (names : Nat → String)
    (provider : Provider) (st : NanoState) (prompt : String)
    (model : Option String) :
    (generateImage names provider st prompt model).2.config = st.config
    ∧ (generateImage names provider st prompt model).2.genAI = st.genAI
    ∧ (generateImage names provider st prompt model).2.configSource
        = st.configSource := by
  unfold generateImage
  repeat' split
  all_goals exact ⟨rfl, rfl, rfl⟩

theorem editImage_credential_frame (fs : Fs) (names : Nat → String)
    (provider : Provider) (st : NanoState) (imagePath prompt : String)
    (refs : Option (List String)) (model : Option String) :
    (editImage fs names provider st imagePath prompt refs model).2.config
        = st.config
    ∧ (editImage fs names provider st imagePath prompt refs model).2.genAI
        = st.genAI
    ∧ (editImage fs names provider st imagePath prompt refs
        model).2.configSource = st.configSource := by
  unfold editImage
  dsimp only
  repeat' split
  all_goals exact ⟨rfl, rfl, rfl⟩

theorem continueEditing_credential_frame (fs : Fs) (names : Nat → String)
    (provider : Provider) (st : NanoState) (prompt : String)
    (refs : Option (List String)) (model : Option String) :
    (continueEditing fs names provider st prompt refs model).2.config
        = st.config
    ∧ (continueEditing fs names provider st prompt refs model).2.genAI
        = st.genAI
    ∧ (continueEditing fs names provider st prompt refs
        model).2.configSource = st.configSource := by
  unfold continueEditing
  repeat' split
  · exact ⟨rfl, rfl, rfl⟩
  · exact ⟨rfl, rfl, rfl⟩
  · exact editImage_credential_frame ..
  · exact ⟨rfl, rfl, rfl⟩

-- Claim theorems.

/-- C4: the validator resolves the path, then checks the lower-cased
extension against the allow-list (rejecting with `InvalidParams` regardless
of existence or size), then stats the resolved path (rejecting with a
not-found reason), then rejects sizes over the 20 MiB cap; exactly
20971520 bytes is accepted and 20971521 is rejected. -/
theorem validateImagePath_check_order (fs : Fs) (p : String) :
    (¬ ALLOWED_IMAGE_EXTENSIONS.contains (toLowerStr (extname (fs.resolve p))) →
        validateImagePath fs p
          = .error (invalidParams (unsupportedFormatMsg
              (toLowerStr (extname (fs.resolve p))))))
    ∧ (ALLOWED_IMAGE_EXTENSIONS.contains (toLowerStr (extname (fs.resolve p))) →
        fs.stat (fs.resolve p) = none →
        validateImagePath fs p = .error (invalidParams (notFoundMsg p)))
    ∧ (∀ stats,
        ALLOWED_IMAGE_EXTENSIONS.contains (toLowerStr (extname (fs.resolve p))) →
        fs.stat (fs.resolve p) = some stats →
        stats.size ≤ MAX_IMAGE_SIZE_BYTES →
        validateImagePath fs p = .ok ())
    ∧ (∀ stats,
        ALLOWED_IMAGE_EXTENSIONS.contains (toLowerStr (extname (fs.resolve p))) →
        fs.stat (fs.resolve p) = some stats →
        stats.size > MAX_IMAGE_SIZE_BYTES →
        validateImagePath fs p
          = .error (invalidParams (tooLargeMsg stats.size)))
    ∧ MAX_IMAGE_SIZE_BYTES = 20971520 := by
  refine ⟨?_, ?_, ?_, ?_, rfl⟩
  · intro hext
    unfold validateImagePath
    rw [if_pos hext]
  · intro hext hstat
    unfold validateImagePath
    rw [if_neg (by simpa using hext), hstat]
  · intro stats hext hstat hsize
    unfold validateImagePath
    rw [if_neg (by simpa using hext), hstat]
    dsimp only
    rw [if_neg (by omega)]
  · intro stats hext hstat hsize
    unfold validateImagePath
    rw [if_neg (by simpa using hext), hstat]
    dsimp only
    rw [if_pos hsize]

/-- C4 witness: on a concrete filesystem, a file of exactly the cap size is
accepted, one byte over is rejected, a missing allowed-extension file is
rejected as not found, and a disallowed extension is rejected even though
the file does not exist at all. -/
theorem validateImagePath_check_order_witness :
    validateImagePath fsW "/cap.png" = .ok ()
    ∧ validateImagePath fsW "/big.png"
        = .error (invalidParams (tooLargeMsg 20971521))
    ∧ validateImagePath fsW "/nothere.png"
        = .error (invalidParams (notFoundMsg "/nothere.png"))
    ∧ validateImagePath fsW "/art.svg"
        = .error (invalidParams (unsupportedFormatMsg ".svg")) :=
  ⟨(validateImagePath_check_order fsW "/cap.png").2.2.1 ⟨20971520, "t2"⟩
      (by decide) (by decide) (by decide),
   (validateImagePath_check_order fsW "/big.png").2.2.2.1 ⟨20971521, "t3"⟩
      (by decide) (by decide) (by decide),
   (validateImagePath_check_order fsW "/nothere.png").2.1
      (by decide) (by decide),
   (validateImagePath_check_order fsW "/art.svg").1 (by decide)⟩

/-- C10: in `continueEditing` the configured-credential check precedes the
prior-image checks: with no active credential the call fails with the
not-configured error, whatever the session state (in particular with no
last image path, or a tracked file that has vanished). -/
theorem continueEditing_not_configured_first (fs : Fs)
    (names : Nat → String) (provider : Provider) (st : NanoState)
    (prompt : String) (refs : Option (List String)) (model : Option String)
    (hconf : ensureConfigured st = false) :
    continueEditing fs names provider st prompt refs model
      = (.error notConfiguredErr, st) := by
  unfold continueEditing
  rw [hconf]
  simp

/-- C10 witness: an unconfigured server fails `continue_editing` with the
not-configured error both when no prior image is tracked and when the
tracked file has vanished. -/
theorem continueEditing_not_configured_first_witness :
    continueEditing fsW namesW provOK initialState "p" none none
      = (.error notConfiguredErr, initialState)
    ∧ continueEditing fsW namesW provOK stUnconf "p" none none
      = (.error notConfiguredErr, stUnconf) :=
  ⟨continueEditing_not_configured_first fsW namesW provOK initialState
      "p" none none rfl,
   continueEditing_not_configured_first fsW namesW provOK stUnconf
      "p" none none rfl⟩

/-- C9 counterexample: the empty string is a model id outside the supported
set, yet it is not rejected with `InvalidParams`: `if (!model)` treats it
as an omitted model, the call proceeds to the remote capability (the result
depends on the provider) and succeeds. -/
theorem resolveModel_empty_string_counterexample :
    SUPPORTED_MODELS.contains "" = false
    ∧ resolveModel (some "") = .ok DEFAULT_MODEL
    ∧ generateImage namesW provOK stEnv "hi" (some "")
        = generateImage namesW provOK stEnv "hi" none
    ∧ (generateImage namesW provOK stEnv "hi" (some "")).1
        = .ok (buildImageResponse namesW respTextOnly "generated" "hi" []
            stEnv).1
    ∧ (generateImage namesW provOK stEnv "hi" (some "")).1
        ≠ (generateImage namesW provFail stEnv "hi" (some "")).1 := by
  refine ⟨rfl, rfl, rfl, rfl, ?_⟩
  intro h
  have h1 : (generateImage namesW provOK stEnv "hi" (some "")).1
      = Except.ok
          (buildImageResponse namesW respTextOnly "generated" "hi" []
            stEnv).1 := rfl
  have h2 : (generateImage namesW provFail stEnv "hi" (some "")).1
      = Except.error (internalErr ("Failed to generate image: " ++ "boom")) :=
    rfl
  rw [h1, h2] at h
  exact Except.noConfusion h

/-- C9 (amended): omitting the model id, or passing the empty string (which
JavaScript truthiness treats as omitted), behaves identically to passing
the default model id explicitly, for both generate and edit; any non-empty
model id outside the supported set is rejected with `InvalidParams` before
any remote call (the result does not depend on the provider). -/
theorem resolveModel_default_and_rejection (fs : Fs) (names : Nat → String)
    (provider : Provider) (st : NanoState) (ip prompt : String)
    (refs : Option (List String)) :
    generateImage names provider st prompt none
      = generateImage names provider st prompt (some DEFAULT_MODEL)
    ∧ generateImage names provider st prompt (some "")
      = generateImage names provider st prompt none
    ∧ editImage fs names provider st ip prompt refs none
      = editImage fs names provider st ip prompt refs (some DEFAULT_MODEL)
    ∧ editImage fs names provider st ip prompt refs (some "")
      = editImage fs names provider st ip prompt refs none
    ∧ (∀ m, m ≠ "" → ¬ SUPPORTED_MODELS.contains m →
        ensureConfigured st = true →
        generateImage names provider st prompt (some m)
          = (.error (invalidParams (unsupportedModelMsg m)), st)
        ∧ editImage fs names provider st ip prompt refs (some m)
          = (.error (invalidParams (unsupportedModelMsg m)), st)) := by
  have hdef : resolveModel (some DEFAULT_MODEL) = .ok DEFAULT_MODEL := rfl
  have hnone : resolveModel none = .ok DEFAULT_MODEL := rfl
  refine ⟨?_, ?_, ?_, ?_, ?_⟩
  · unfold generateImage
    rw [hdef, hnone]
  · rfl
  · unfold editImage
    rw [hdef, hnone]
  · rfl
  · intro m hm hc hconf
    have hrej : resolveModel (some m)
        = .error (invalidParams (unsupportedModelMsg m)) := by
      unfold resolveModel
      dsimp only
      rw [if_neg hm, if_neg hc]
    constructor
    · unfold generateImage
      rw [hconf, hrej]
      simp
    · unfold editImage
      rw [hconf, hrej]
      simp

/-- C9 (amended) witness: on a configured server, `"gpt-5"` is rejected
before any remote call, and omitting the model equals passing the default
explicitly. -/
theorem resolveModel_default_and_rejection_witness :
    generateImage namesW provOK stEnv "hi" none
      = generateImage namesW provOK stEnv "hi" (some DEFAULT_MODEL)
    ∧ generateImage namesW provOK stEnv "hi" (some "gpt-5")
      = (.error (invalidParams (unsupportedModelMsg "gpt-5")), stEnv)
    ∧ editImage fsW namesW provFail stEnv "/a.png" "p" none (some "gpt-5")
      = (.error (invalidParams (unsupportedModelMsg "gpt-5")), stEnv) :=
  ⟨(resolveModel_default_and_rejection fsW namesW provOK stEnv "/a.png"
      "hi" none).1,
   ((resolveModel_default_and_rejection fsW namesW provOK stEnv "/a.png"
      "hi" none).2.2.2.2 "gpt-5" (by decide) (by decide) rfl).1,
   ((resolveModel_default_and_rejection fsW namesW provFail stEnv "/a.png"
      "p" none).2.2.2.2 "gpt-5" (by decide) (by decide) rfl).2⟩

/-- C6 counterexample: after startup resolved the environment credential,
the `configure_gemini_token` operation replaces the active credential and
flips its source label to the config-file label, so the credential and
label are not immutable for the process lifetime. -/
theorem configure_changes_credential_counterexample :
    stEnv.configSource = ConfigSource.environment
    ∧ stEnv.config = some "k1"
    ∧ (configureGeminiToken writeOkFn "/home/u" stEnv "k2").result
        = .ok configureOkText
    ∧ (configureGeminiToken writeOkFn "/home/u" stEnv "k2").state.config
        = some "k2"
    ∧ (configureGeminiToken writeOkFn "/home/u" stEnv
        "k2").state.configSource = ConfigSource.config_file :=
  ⟨rfl, rfl, rfl, rfl, rfl⟩

/-- C6 (amended): after startup, the active credential and its source label
are changed by no operation except the explicit configure operation:
generate, edit and continue-editing always leave `config`, `genAI` and
`configSource` unchanged, while a configure call with a valid token
installs that token as the active credential with the config-file source
label. -/
theorem credential_immutable_except_configure (fs : Fs)
    (names : Nat → String) (provider : Provider) (st : NanoState)
    (ip prompt : String) (refs : Option (List String))
    (model : Option String) :
    (generateImage names provider st prompt model).2.config = st.config
    ∧ (generateImage names provider st prompt model).2.genAI = st.genAI
    ∧ (generateImage names provider st prompt model).2.configSource
        = st.configSource
    ∧ (editImage fs names provider st ip prompt refs model).2.config
        = st.config
    ∧ (editImage fs names provider st ip prompt refs model).2.genAI
        = st.genAI
    ∧ (editImage fs names provider st ip prompt refs model).2.configSource
        = st.configSource
    ∧ (continueEditing fs names provider st prompt refs model).2.config
        = st.config
    ∧ (continueEditing fs names provider st prompt refs model).2.genAI
        = st.genAI
    ∧ (continueEditing fs names provider st prompt refs
        model).2.configSource = st.configSource
    ∧ (∀ w home key, 1 ≤ key.length →
        (configureGeminiToken w home st key).state.config = some key
        ∧ (configureGeminiToken w home st key).state.configSource
            = ConfigSource.config_file) := by
  obtain ⟨g1, g2, g3⟩ :=
    generateImage_credential_frame names provider st prompt model
  obtain ⟨e1, e2, e3⟩ :=
    editImage_credential_frame fs names provider st ip prompt refs model
  obtain ⟨c1, c2, c3⟩ :=
    continueEditing_credential_frame fs names provider st prompt refs model
  refine ⟨g1, g2, g3, e1, e2, e3, c1, c2, c3, ?_⟩
  intro w home key hk
  unfold configureGeminiToken
  rw [if_pos hk]
  constructor
  · split
    · rfl
    · rfl
  · split
    · rfl
    · rfl

/-- C6 (amended) witness: a generate call (which fails on the unconfigured
initial state) and a successful configure call, at concrete inputs. -/
theorem credential_immutable_except_configure_witness :
    (generateImage namesW provOK stEnv "hi" none).2.configSource
        = stEnv.configSource
    ∧ (configureGeminiToken writeOkFn "/home/u" stEnv "k2").state.config
        = some "k2" :=
  ⟨(credential_immutable_except_configure fsW namesW provOK stEnv "/a.png"
      "hi" none none).2.2.1,
   ((credential_immutable_except_configure fsW namesW provOK stEnv "/a.png"
      "hi" none none).2.2.2.2.2.2.2.2.2 writeOkFn "/home/u" "k2"
      (by decide)).1⟩

theorem one_le_length_of_ne_empty (k : String) (h : k ≠ "") :
    1 ≤ k.length := by
  obtain ⟨data⟩ := k
  cases data with
  | nil => exact absurd rfl h
  | cons c cs =>
      simp only [String.length, List.length_cons]
      omega

/-- C3: startup credential resolution selects a present, valid environment
credential unconditionally (its result does not depend on the config record
at all); the config record is consulted exactly when the environment
variable is absent or invalid; and the not-configured label is reported
only when the record is also absent/unreadable or fails the schema. -/
theorem loadConfig_env_precedence (env : Option String) (file : Option Json)
    (st : NanoState) :
    (∀ k, env = some k → k ≠ "" →
        loadConfig env file st
          = { st with config := some k, genAI := some k,
                      configSource := .environment })
    ∧ ((env = none ∨ env = some "") →
        loadConfig env file st = loadFromFile file st)
    ∧ (∀ j k, file = some j → configSchemaParse j = some k →
        loadFromFile file st
          = { st with config := some k, genAI := some k,
                      configSource := .config_file })
    ∧ ((file = none ∨ ∃ j, file = some j ∧ configSchemaParse j = none) →
        (loadFromFile file st).configSource = .not_configured
        ∧ (loadFromFile file st).config = st.config) := by
  refine ⟨?_, ?_, ?_, ?_⟩
  · intro k hk hne
    subst hk
    unfold loadConfig
    dsimp only
    rw [if_pos hne, if_pos (one_le_length_of_ne_empty k hne)]
  · intro h
    rcases h with h | h <;> subst h <;> rfl
  · intro j k hf hp
    subst hf
    unfold loadFromFile
    dsimp only
    rw [hp]
  · intro h
    rcases h with h | ⟨j, hf, hp⟩
    · subst h
      exact ⟨rfl, rfl⟩
    · subst hf
      unfold loadFromFile
      dsimp only
      rw [hp]
      exact ⟨rfl, rfl⟩

/-- C3 witness: with both an environment credential and a valid config
record present, resolution picks the environment one; with no environment
variable the record is used; with neither, the state reports
not-configured. -/
theorem loadConfig_env_precedence_witness :
    loadConfig (some "envk")
        (some (.obj [("geminiApiKey", JVal.str "filek")])) initialState
      = { initialState with config := some "envk", genAI := some "envk",
                            configSource := .environment }
    ∧ loadConfig none (some (.obj [("geminiApiKey", JVal.str "filek")]))
        initialState
      = { initialState with config := some "filek", genAI := some "filek",
                            configSource := .config_file }
    ∧ (loadFromFile none initialState).configSource
        = ConfigSource.not_configured :=
  ⟨(loadConfig_env_precedence (some "envk")
      (some (.obj [("geminiApiKey", JVal.str "filek")])) initialState).1
      "envk" rfl (by decide),
   ((loadConfig_env_precedence none
      (some (.obj [("geminiApiKey", JVal.str "filek")])) initialState).2.1
      (Or.inl rfl)).trans
    ((loadConfig_env_precedence none
      (some (.obj [("geminiApiKey", JVal.str "filek")])) initialState).2.2.1
      (.obj [("geminiApiKey", JVal.str "filek")]) "filek" rfl (by decide)),
   ((loadConfig_env_precedence none none initialState).2.2.2
      (Or.inl rfl)).1⟩

-- Helper lemmas for the fallible-write reassembly model.

theorem listGetD_zero {α : Type} (a : α) (l : List α) (d : α) :
    (a :: l).getD 0 d = a := rfl

theorem listGetD_succ {α : Type} (a : α) (l : List α) (n : Nat) (d : α) :
    (a :: l).getD (n + 1) d = l.getD n d := rfl

/-- `stepPartW` rewritten by what the part contributes and whether its
write succeeds. -/
theorem stepPartW_eq (writeFile : String → String → Except String Unit)
    (names : Nat → String) (acc : PartsAcc) (p : RespPart) :
    stepPartW writeFile names acc p =
      match partImageData p with
      | none =>
          .ok { acc with textContent := acc.textContent ++ partTextOf p }
      | some dat =>
          match writeFile (names acc.savedFiles.length) dat with
          | .error msg =>
              .error (msg,
                { acc with textContent := acc.textContent ++ partTextOf p })
          | .ok _ =>
              .ok { textContent := acc.textContent ++ partTextOf p,
                    savedFiles := acc.savedFiles
                      ++ [names acc.savedFiles.length],
                    images := acc.images ++ [(dat, partImageMime p)],
                    writes := acc.writes
                      ++ [(names acc.savedFiles.length, dat)],
                    last := some (names acc.savedFiles.length) } := by
  obtain ⟨t, i⟩ := p
  cases t with
  | none =>
      cases i with
      | none =>
          simp [stepPartW, partTextOf, partImageData, String.append_empty]
      | some d =>
          obtain ⟨dd, dm⟩ := d
          cases dd with
          | none =>
              simp [stepPartW, partTextOf, partImageData,
                String.append_empty]
          | some s =>
              by_cases hs : s = "" <;>
                simp [stepPartW, partTextOf, partImageData, partImageMime,
                  hs, String.append_empty]
  | some t0 =>
      by_cases ht : t0 = "" <;>
      · cases i with
        | none =>
            simp [stepPartW, partTextOf, partImageData, ht,
              String.append_empty]
        | some d =>
            obtain ⟨dd, dm⟩ := d
            cases dd with
            | none =>
                simp [stepPartW, partTextOf, partImageData, ht,
                  String.append_empty]
            | some s =>
                by_cases hs : s = "" <;>
                  simp [stepPartW, partTextOf, partImageData, partImageMime,
                    ht, hs, String.append_empty]

/-- With writes that always succeed, one fallible step is the infallible
step. -/
theorem stepPartW_total (names : Nat → String) (acc : PartsAcc)
    (p : RespPart) :
    stepPartW (fun _ _ => .ok ()) names acc p
      = .ok (stepPart names acc p) := by
  rw [stepPartW_eq, stepPart_eq]
  cases partImageData p <;> rfl

/-- With writes that always succeed, the fallible walk is the infallible
fold. -/
theorem foldPartsW_total (names : Nat → String) :
    ∀ (ps : List RespPart) (acc : PartsAcc),
      foldPartsW (fun _ _ => .ok ()) names ps acc
        = .ok (ps.foldl (stepPart names) acc) := by
  intro ps
  induction ps with
  | nil => intro acc; rfl
  | cons p rest ih =>
      intro acc
      simp only [foldPartsW, List.foldl_cons]
      rw [stepPartW_total]
      exact ih _

/-- The infallible `buildImageResponse` is the all-writes-succeed
projection of the fallible model. -/
theorem buildImageResponseW_total (names : Nat → String)
    (resp : GenResponse) (pfx pt : String) (ws : List String)
    (st : NanoState) :
    buildImageResponseW (fun _ _ => .ok ()) names resp pfx pt ws st
      = (.ok (buildImageResponse names resp pfx pt ws st).1,
         (buildImageResponse names resp pfx pt ws st).2) := by
  unfold buildImageResponseW
  rw [foldPartsW_total]
  rfl

theorem generateImageW_total (names : Nat → String) (provider : Provider)
    (st : NanoState) (prompt : String) (model : Option String) :
    generateImageW (fun _ _ => .ok ()) names provider st prompt model
      = generateImage names provider st prompt model := by
  unfold generateImageW generateImage
  split
  · rfl
  · cases hm : resolveModel model with
    | error e => rfl
    | ok m =>
        dsimp only
        cases hp : provider m (.textOnly prompt) with
        | error msg => rfl
        | ok resp =>
            dsimp only
            rw [buildImageResponseW_total]

theorem editImageW_total (fs : Fs) (names : Nat → String)
    (provider : Provider) (st : NanoState) (ip prompt : String)
    (refs : Option (List String)) (model : Option String) :
    editImageW (fun _ _ => .ok ()) fs names provider st ip prompt refs model
      = editImage fs names provider st ip prompt refs model := by
  unfold editImageW editImage
  split
  · rfl
  · cases hm : resolveModel model with
    | error e => rfl
    | ok m =>
        dsimp only
        cases hv : validateImagePath fs ip with
        | error e => rfl
        | ok u =>
            dsimp only
            cases hr : fs.read ip with
            | error msg => rfl
            | ok dat =>
                dsimp only
                cases hp : provider m (.parts (ContentPart.inlineData dat
                    (getMimeType ip) :: (processRefs fs (refs.getD [])).1
                    ++ [ContentPart.text prompt])) with
                | error msg => rfl
                | ok resp =>
                    dsimp only
                    rw [buildImageResponseW_total]

/-- When the `j`-th image write is the first to fail, the walk aborts with
that write's error and the pending `lastImagePath` mutation is the
`(j-1)`-th fresh path (or whatever it was, when the first write fails). -/
theorem foldPartsW_fail (writeFile : String → String → Except String Unit)
    (names : Nat → String) :
    ∀ (ps : List RespPart) (acc : PartsAcc) (k j : Nat) (msg : String),
      acc.savedFiles.length = k →
      j < (imageDatas ps).length →
      (∀ i, i < j → writeFile (names (k + i))
          ((imageDatas ps).getD i "") = .ok ()) →
      writeFile (names (k + j)) ((imageDatas ps).getD j "") = .error msg →
      ∃ accE, foldPartsW writeFile names ps acc = .error (msg, accE)
        ∧ accE.last = (if j = 0 then acc.last
            else some (names (k + j - 1))) := by
  intro ps
  induction ps with
  | nil =>
      intro acc k j msg hk hj hok hfail
      simp [imageDatas] at hj
  | cons p rest ih =>
      intro acc k j msg hk hj hok hfail
      simp only [foldPartsW]
      rw [stepPartW_eq, hk]
      cases hp : partImageData p with
      | none =>
          have hdat : imageDatas (p :: rest) = imageDatas rest := by
            simp [imageDatas, List.filterMap_cons, hp]
          rw [hdat] at hj hok hfail
          dsimp only
          exact ih { acc with textContent := acc.textContent ++ partTextOf p }
            k j msg hk hj hok hfail
      | some dat =>
          have hdat : imageDatas (p :: rest) = dat :: imageDatas rest := by
            simp [imageDatas, List.filterMap_cons, hp]
          rw [hdat] at hj hok hfail
          dsimp only
          cases j with
          | zero =>
              rw [Nat.add_zero, listGetD_zero] at hfail
              rw [hfail]
              exact ⟨_, rfl, by simp⟩
          | succ j2 =>
              have h0 : writeFile (names k) dat = .ok () := by
                have h1 := hok 0 (Nat.succ_pos j2)
                rwa [Nat.add_zero, listGetD_zero] at h1
              rw [h0]
              dsimp only
              have hklen :
                  ({ textContent := acc.textContent ++ partTextOf p,
                     savedFiles := acc.savedFiles ++ [names k],
                     images := acc.images ++ [(dat, partImageMime p)],
                     writes := acc.writes ++ [(names k, dat)],
                     last := some (names k) } : PartsAcc).savedFiles.length
                  = k + 1 := by
                simp [hk]
              have hok2 : ∀ i, i < j2 → writeFile (names (k + 1 + i))
                  ((imageDatas rest).getD i "") = .ok () := by
                intro i hi
                have h2 := hok (i + 1) (Nat.succ_lt_succ hi)
                rw [listGetD_succ] at h2
                have harith : k + (i + 1) = k + 1 + i := by omega
                rwa [harith] at h2
              have hfail2 : writeFile (names (k + 1 + j2))
                  ((imageDatas rest).getD j2 "") = .error msg := by
                rw [listGetD_succ] at hfail
                have harith : k + (j2 + 1) = k + 1 + j2 := by omega
                rwa [harith] at hfail
              have hj2 : j2 < (imageDatas rest).length := by
                rw [List.length_cons] at hj
                omega
              obtain ⟨accE, hE, hL⟩ :=
                ih { textContent := acc.textContent ++ partTextOf p,
                     savedFiles := acc.savedFiles ++ [names k],
                     images := acc.images ++ [(dat, partImageMime p)],
                     writes := acc.writes ++ [(names k, dat)],
                     last := some (names k) }
                  (k + 1) j2 msg hklen hj2 hok2 hfail2
              refine ⟨accE, hE, ?_⟩
              rw [hL]
              rw [if_neg (Nat.succ_ne_zero j2)]
              by_cases hz : j2 = 0
              · subst hz
                rw [if_pos rfl]
                have harith : k + (0 + 1) - 1 = k := by omega
                rw [harith]
              · rw [if_neg hz]
                have harith : k + 1 + j2 - 1 = k + (j2 + 1) - 1 := by omega
                rw [harith]

/-- `buildImageResponseW` when the `j`-th image write of the first
candidate is the first to fail: the error surfaces and `lastImagePath` has
already advanced to the `(j-1)`-th written path (unchanged when the very
first write fails). -/
theorem buildImageResponseW_fail
    (writeFile : String → String → Except String Unit)
    (names : Nat → String) (resp : GenResponse) (pfx pt : String)
    (ws : List String) (st : NanoState) (j : Nat) (msg : String)
    (hj : j < (imageDatas (firstParts resp)).length)
    (hok : ∀ i, i < j → writeFile (names i)
        ((imageDatas (firstParts resp)).getD i "") = .ok ())
    (hfail : writeFile (names j) ((imageDatas (firstParts resp)).getD j "")
        = .error msg) :
    buildImageResponseW writeFile names resp pfx pt ws st
      = (.error msg,
         { st with lastImagePath :=
             if j = 0 then st.lastImagePath else some (names (j - 1)) }) := by
  obtain ⟨accE, hE, hL⟩ :=
    foldPartsW_fail writeFile names (firstParts resp) initAcc 0 j msg rfl hj
      (by simpa using hok) (by simpa using hfail)
  unfold buildImageResponseW
  rw [hE]
  dsimp only
  rw [hL]
  by_cases hz : j = 0
  · rw [if_pos hz, if_pos hz]
    rfl
  · rw [if_neg hz, if_neg hz, Nat.zero_add]

/-- C5 counterexample: a configure call whose config-file write fails is a
failed call, yet it has already installed the new in-memory credential and
flipped the source label — partially-applied credential state. -/
theorem configure_partial_state_counterexample :
    (configureGeminiToken writeFailFn "/home/u" stEnv "k2").result
        = .error (internalErr ("Tool execution failed: "
            ++ "EACCES: permission denied"))
    ∧ (configureGeminiToken writeFailFn "/home/u" stEnv "k2").state.config
        = some "k2"
    ∧ ¬ stEnv.config = some "k2"
    ∧ (configureGeminiToken writeFailFn "/home/u" stEnv
        "k2").state.configSource = ConfigSource.config_file
    ∧ stEnv.configSource = ConfigSource.environment :=
  ⟨rfl, rfl, by decide, rfl, rfl⟩

/-- C5 (amended): over the fallible-write model, every failure before or
at the provider call — unconfigured server, invalid model id, invalid
primary image, unreadable primary image, provider failure — leaves the
session state unchanged (validation failures never consult the provider),
and a configure call that fails token validation leaves the state
unchanged and writes nothing.  When an artifact write fails midway through
reassembly, however, the call fails with `lastImagePath` already advanced
to the last successfully written path (unchanged only when the first write
fails); the all-writes-succeed projection recovers the infallible model. -/
theorem failures_leave_no_side_effects
    (writeFile : String → String → Except String Unit) (fs : Fs)
    (names : Nat → String) (provider : Provider) (st : NanoState)
    (ip prompt : String) (refs : Option (List String))
    (model : Option String) :
    (ensureConfigured st = false →
        generateImageW writeFile names provider st prompt model
          = (.error notConfiguredErr, st)
        ∧ editImageW writeFile fs names provider st ip prompt refs model
          = (.error notConfiguredErr, st)) ∧
    (∀ e, ensureConfigured st = true → resolveModel model = .error e →
        generateImageW writeFile names provider st prompt model
          = (.error e, st)
        ∧ editImageW writeFile fs names provider st ip prompt refs model
          = (.error e, st)) ∧
    (∀ e m, ensureConfigured st = true → resolveModel model = .ok m →
        validateImagePath fs ip = .error e →
        editImageW writeFile fs names provider st ip prompt refs model
          = (.error e, st)) ∧
    (∀ m msg, ensureConfigured st = true → resolveModel model = .ok m →
        validateImagePath fs ip = .ok () → fs.read ip = .error msg →
        editImageW writeFile fs names provider st ip prompt refs model
          = (.error (internalErr ("Failed to edit image: " ++ msg)), st)) ∧
    (∀ m msg, ensureConfigured st = true → resolveModel model = .ok m →
        provider m (.textOnly prompt) = .error msg →
        generateImageW writeFile names provider st prompt model
          = (.error (internalErr ("Failed to generate image: " ++ msg)),
             st)) ∧
    (∀ m msg dat, ensureConfigured st = true → resolveModel model = .ok m →
        validateImagePath fs ip = .ok () → fs.read ip = .ok dat →
        provider m (.parts (ContentPart.inlineData dat (getMimeType ip)
            :: (processRefs fs (refs.getD [])).1
            ++ [ContentPart.text prompt])) = .error msg →
        editImageW writeFile fs names provider st ip prompt refs model
          = (.error (internalErr ("Failed to edit image: " ++ msg)), st)) ∧
    (∀ m resp j msg, ensureConfigured st = true →
        resolveModel model = .ok m →
        provider m (.textOnly prompt) = .ok resp →
        j < (imageDatas (firstParts resp)).length →
        (∀ i, i < j → writeFile (names i)
            ((imageDatas (firstParts resp)).getD i "") = .ok ()) →
        writeFile (names j) ((imageDatas (firstParts resp)).getD j "")
          = .error msg →
        generateImageW writeFile names provider st prompt model
          = (.error (internalErr ("Failed to generate image: " ++ msg)),
             { st with
                 lastImagePath := if j = 0 then st.lastImagePath
                   else some (names (j - 1)) })) ∧
    (∀ m resp j msg dat, ensureConfigured st = true →
        resolveModel model = .ok m →
        validateImagePath fs ip = .ok () → fs.read ip = .ok dat →
        provider m (.parts (ContentPart.inlineData dat (getMimeType ip)
            :: (processRefs fs (refs.getD [])).1
            ++ [ContentPart.text prompt])) = .ok resp →
        j < (imageDatas (firstParts resp)).length →
        (∀ i, i < j → writeFile (names i)
            ((imageDatas (firstParts resp)).getD i "") = .ok ()) →
        writeFile (names j) ((imageDatas (firstParts resp)).getD j "")
          = .error msg →
        editImageW writeFile fs names provider st ip prompt refs model
          = (.error (internalErr ("Failed to edit image: " ++ msg)),
             { st with
                 lastImagePath := if j = 0 then st.lastImagePath
                   else some (names (j - 1)) })) ∧
    (∀ w home key, key.length = 0 →
        (configureGeminiToken w home st key).result
          = .error
              (invalidParams "Invalid API key: Gemini API key is required")
        ∧ (configureGeminiToken w home st key).state = st
        ∧ (configureGeminiToken w home st key).writes = []) ∧
    generateImageW (fun _ _ => .ok ()) names provider st prompt model
      = generateImage names provider st prompt model ∧
    editImageW (fun _ _ => .ok ()) fs names provider st ip prompt refs model
      = editImage fs names provider st ip prompt refs model := by
  refine ⟨?_, ?_, ?_, ?_, ?_, ?_, ?_, ?_, ?_,
    generateImageW_total names provider st prompt model,
    editImageW_total fs names provider st ip prompt refs model⟩
  · intro hconf
    constructor
    · unfold generateImageW
      rw [hconf]
      simp
    · unfold editImageW
      rw [hconf]
      simp
  · intro e hconf hm
    constructor
    · unfold generateImageW
      rw [hconf, hm]
      simp
    · unfold editImageW
      rw [hconf, hm]
      simp
  · intro e m hconf hm hval
    unfold editImageW
    rw [hconf, hm, hval]
    simp
  · intro m msg hconf hm hval hread
    unfold editImageW
    rw [hconf, hm, hval, hread]
    simp
  · intro m msg hconf hm hprov
    unfold generateImageW
    rw [hconf, hm]
    dsimp only
    rw [hprov]
    simp
  · intro m msg dat hconf hm hval hread hprov
    unfold editImageW
    rw [hconf, hm, hval, hread]
    dsimp only
    rw [hprov]
    simp
  · intro m resp j msg hconf hm hprov hj hok hfail
    unfold generateImageW
    rw [hconf, hm]
    dsimp only
    rw [hprov]
    dsimp only
    rw [buildImageResponseW_fail writeFile names resp "generated" prompt []
      st j msg hj hok hfail]
    simp
  · intro m resp j msg dat hconf hm hval hread hprov hj hok hfail
    unfold editImageW
    rw [hconf, hm, hval, hread]
    dsimp only
    rw [hprov]
    dsimp only
    rw [buildImageResponseW_fail writeFile names resp "edited" prompt
      (processRefs fs (refs.getD [])).2 st j msg hj hok hfail]
    simp
  · intro w home key hk
    unfold configureGeminiToken
    rw [if_neg (by omega)]
    exact ⟨rfl, rfl, rfl⟩

/-- C5 (amended) witness: a two-image response whose second artifact write
rejects fails the generate call with `lastImagePath` already advanced to
the first written path; an unreadable primary aborts edit with the state
unchanged; an unconfigured generate and an empty-token configure leave the
state unchanged. -/
theorem failures_leave_no_side_effects_witness :
    generateImageW writeFail2 namesW provTwo stEnv "hi" none
      = (.error (internalErr ("Failed to generate image: "
          ++ "ENOSPC: no space left on device")),
         { stEnv with
             lastImagePath := some "/work/generated_imgs/img-0.png" })
    ∧ editImageW writeFail2 fsW namesW provOK stEnv "/cap.png" "p" none none
      = (.error (internalErr ("Failed to edit image: "
          ++ "ENOENT: no such file or directory, open /cap.png")), stEnv)
    ∧ generateImageW writeFail2 namesW provOK initialState "hi" none
      = (.error notConfiguredErr, initialState)
    ∧ (configureGeminiToken writeOkFn "/home/u" stEnv "").state = stEnv :=
  ⟨(failures_leave_no_side_effects writeFail2 fsW namesW provTwo stEnv
      "/cap.png" "hi" none none).2.2.2.2.2.2.1 DEFAULT_MODEL respTwoImgs 1
      "ENOSPC: no space left on device" rfl rfl rfl (by decide)
      (by
        intro i hi
        have h0 : i = 0 := by omega
        subst h0
        rfl)
      rfl,
   (failures_leave_no_side_effects writeFail2 fsW namesW provOK stEnv
      "/cap.png" "p" none none).2.2.2.1 DEFAULT_MODEL
      "ENOENT: no such file or directory, open /cap.png" rfl rfl rfl rfl,
   ((failures_leave_no_side_effects writeFail2 fsW namesW provOK
      initialState "/a.png" "hi" none none).1 rfl).1,
   ((failures_leave_no_side_effects writeFail2 fsW namesW provOK stEnv
      "/a.png" "hi" none none).2.2.2.2.2.2.2.2.1 writeOkFn "/home/u" ""
      (by decide)).2.1⟩

/-- C8: on a configured server, `continue_editing` fails with the
no-prior-image error when the session tracks no last artifact, fails with
the distinct stale-prior-image error when the tracked file no longer
exists, and otherwise delegates to `editImage` with the tracked path as
primary image; on the same vanished-file state, `get_last_image_info`
returns an informational file-not-found text instead of an error. -/
theorem continueEditing_session_preconditions (fs : Fs)
    (names : Nat → String) (provider : Provider) (st : NanoState)
    (prompt : String) (refs : Option (List String)) (model : Option String)
    (hconf : ensureConfigured st = true) :
    (st.lastImagePath = none →
        continueEditing fs names provider st prompt refs model
          = (.error noPriorImageErr, st))
    ∧ (∀ p, st.lastImagePath = some p → fs.stat p = none →
        continueEditing fs names provider st prompt refs model
          = (.error (stalePriorImageErr p), st))
    ∧ (∀ p, stalePriorImageErr p ≠ noPriorImageErr)
    ∧ (∀ p, st.lastImagePath = some p → (fs.stat p).isSome →
        continueEditing fs names provider st prompt refs model
          = editImage fs names provider st p prompt refs model)
    ∧ (∀ p, st.lastImagePath = some p → fs.stat p = none →
        getLastImageInfo fs st = lastImageGoneText p) := by
  refine ⟨?_, ?_, ?_, ?_, ?_⟩
  · intro h
    unfold continueEditing
    rw [hconf, h]
    simp
  · intro p hp hs
    unfold continueEditing
    rw [hconf, hp]
    dsimp only
    rw [hs]
    simp
  · intro p h
    have h3 := congrArg (fun e => e.msg.data) h
    simp only [stalePriorImageErr, noPriorImageErr, invalidRequest,
      String.data_append] at h3
    have h4 := congrArg (fun l => l.take 4) h3
    have hlen1 : 4 ≤ ("Last image file not found at: ".data
        ++ p.data).length := by
      rw [List.length_append]
      have h30 : "Last image file not found at: ".data.length = 30 := by
        decide
      omega
    simp only at h4
    rw [List.take_append_of_le_length hlen1,
      List.take_append_of_le_length (by decide)] at h4
    exact absurd h4 (by decide)
  · intro p hp hsome
    unfold continueEditing
    rw [hconf, hp]
    simp [hsome]
  · intro p hp hs
    unfold getLastImageInfo
    rw [hp]
    dsimp only
    rw [hs]

/-- C8 witness: on a concrete configured server, the three `continue_editing`
outcomes and the informational `get_last_image_info` answer for the
vanished-file state. -/
theorem continueEditing_session_preconditions_witness :
    continueEditing fsW namesW provOK stEnv "p" none none
      = (.error noPriorImageErr, stEnv)
    ∧ continueEditing fsW namesW provOK stStale "p" none none
      = (.error (stalePriorImageErr "/gone.png"), stStale)
    ∧ continueEditing fsW namesW provOK stLast "p" none none
      = editImage fsW namesW provOK stLast "/a.png" "p" none none
    ∧ getLastImageInfo fsW stStale = lastImageGoneText "/gone.png" :=
  ⟨(continueEditing_session_preconditions fsW namesW provOK stEnv "p" none
      none rfl).1 rfl,
   (continueEditing_session_preconditions fsW namesW provOK stStale "p"
      none none rfl).2.1 "/gone.png" rfl (by decide),
   (continueEditing_session_preconditions fsW namesW provOK stLast "p"
      none none rfl).2.2.2.1 "/a.png" rfl (by decide),
   (continueEditing_session_preconditions fsW namesW provOK stStale "p"
      none none rfl).2.2.2.2 "/gone.png" rfl (by decide)⟩

/-- C1: response reassembly (shared by generate and edit) uses only the
first candidate of the provider response; walking that candidate's parts in
order, text parts concatenate in order into the narrative text, each
image-bearing part's payload is written to a fresh file (the write log
pairs the fresh paths with the payloads in part order), the saved paths are
returned in part order, and the session last-artifact path afterwards is
the path written for the last image part — unchanged when there is none. -/
theorem buildImageResponse_reassembly (names : Nat → String)
    (r : GenResponse) (pfx promptText : String) (warnings : List String)
    (st : NanoState) :
    buildImageResponse names r pfx promptText warnings st
      = buildImageResponse names (firstOnly r) pfx promptText warnings st
    ∧ (buildImageResponse names r pfx promptText warnings st).1.textContent
      = textsOf (firstParts r)
    ∧ (buildImageResponse names r pfx promptText warnings st).1.savedFiles
      = newNames names 0 (imageDatas (firstParts r)).length
    ∧ (buildImageResponse names r pfx promptText warnings st).1.writes
      = List.zip (newNames names 0 (imageDatas (firstParts r)).length)
          (imageDatas (firstParts r))
    ∧ (buildImageResponse names r pfx promptText warnings
        st).2.lastImagePath
      = (if (imageDatas (firstParts r)).length = 0 then st.lastImagePath
         else some (names ((imageDatas (firstParts r)).length - 1))) := by
  obtain ⟨h1, h2, h3, h4, h5⟩ :=
    foldl_stepPart_spec names (firstParts r) initAcc
  have e1 : (buildImageResponse names r pfx promptText warnings
      st).1.textContent
      = ((firstParts r).foldl (stepPart names) initAcc).textContent := rfl
  have e2 : (buildImageResponse names r pfx promptText warnings
      st).1.savedFiles
      = ((firstParts r).foldl (stepPart names) initAcc).savedFiles := rfl
  have e4 : (buildImageResponse names r pfx promptText warnings st).1.writes
      = ((firstParts r).foldl (stepPart names) initAcc).writes := rfl
  have e5 : (buildImageResponse names r pfx promptText warnings
      st).2.lastImagePath
      = (match ((firstParts r).foldl (stepPart names) initAcc).last with
         | some fp => some fp
         | none => st.lastImagePath) := rfl
  refine ⟨?_, ?_, ?_, ?_, ?_⟩
  · unfold buildImageResponse
    rw [firstParts_firstOnly]
  · rw [e1, h1, show initAcc.textContent = "" from rfl,
      String.empty_append]
  · rw [e2, h2, show initAcc.savedFiles = ([] : List String) from rfl,
      List.nil_append, List.length_nil]
  · rw [e4, h4, show initAcc.writes = ([] : List (String × String)) from
      rfl, List.nil_append,
      show initAcc.savedFiles = ([] : List String) from rfl,
      List.length_nil]
  · rw [e5, h5, show initAcc.last = (none : Option String) from rfl,
      show initAcc.savedFiles = ([] : List String) from rfl,
      List.length_nil]
    by_cases h0 : (imageDatas (firstParts r)).length = 0
    · rw [if_pos h0, if_pos h0]
    · rw [if_neg h0, if_neg h0, Nat.zero_add]

/-- Shared consequence of C1's walk characterization: a first candidate
with no image-bearing part saves nothing, leaves the session state
unchanged, and ends the status text with the explicit no-image note. -/
theorem buildImageResponse_no_image (names : Nat → String)
    (resp : GenResponse) (pfx pt : String) (ws : List String)
    (st : NanoState) (hni : imageDatas (firstParts resp) = []) :
    (buildImageResponse names resp pfx pt ws st).1.savedFiles = []
    ∧ (buildImageResponse names resp pfx pt ws st).2.lastImagePath
        = st.lastImagePath
    ∧ ∃ pre, (buildImageResponse names resp pfx pt ws st).1.statusText
        = pre ++ noImageNote := by
  obtain ⟨h1, h2, h3, h4, h5⟩ :=
    foldl_stepPart_spec names (firstParts resp) initAcc
  have hZ : ((firstParts resp).foldl (stepPart names) initAcc).savedFiles
      = [] := by
    rw [h2, hni]
    rfl
  have hL : ((firstParts resp).foldl (stepPart names) initAcc).last
      = none := by
    rw [h5, hni]
    rfl
  refine ⟨?_, ?_, ?_⟩
  · exact hZ
  · have e5 : (buildImageResponse names resp pfx pt ws st).2.lastImagePath
        = (match ((firstParts resp).foldl (stepPart names) initAcc).last
           with
           | some fp => some fp
           | none => st.lastImagePath) := rfl
    rw [e5, hL]
  · have eS : (buildImageResponse names resp pfx pt ws st).1.statusText
        = mkStatusText pfx pt
            ((firstParts resp).foldl (stepPart names) initAcc).textContent
            ws
            ((firstParts resp).foldl (stepPart names) initAcc).savedFiles :=
      rfl
    rw [eS, hZ]
    exact ⟨_, rfl⟩

/-- C7: a generate (or edit, through the shared reassembly) invocation
whose provider response's first candidate has no image-bearing part
succeeds: the result carries no artifacts, its narrative ends with the
explicit no-image note, and the session last-artifact path is unchanged. -/
theorem text_only_response_no_artifacts (names : Nat → String)
    (provider : Provider) (st : NanoState) (prompt : String)
    (model : Option String) (m : String) (resp : GenResponse)
    (hconf : ensureConfigured st = true)
    (hm : resolveModel model = .ok m)
    (hprov : provider m (.textOnly prompt) = .ok resp)
    (hni : imageDatas (firstParts resp) = []) :
    (generateImage names provider st prompt model).1
      = .ok (buildImageResponse names resp "generated" prompt [] st).1
    ∧ (generateImage names provider st prompt model).2.lastImagePath
      = st.lastImagePath
    ∧ (buildImageResponse names resp "generated" prompt [] st).1.savedFiles
      = []
    ∧ (∃ pre,
        (buildImageResponse names resp "generated" prompt []
          st).1.statusText = pre ++ noImageNote)
    ∧ (∀ pfx pt ws,
        (buildImageResponse names resp pfx pt ws st).1.savedFiles = []
        ∧ (buildImageResponse names resp pfx pt ws st).2.lastImagePath
            = st.lastImagePath
        ∧ ∃ pre, (buildImageResponse names resp pfx pt ws st).1.statusText
            = pre ++ noImageNote)
    ∧ (∀ (fs : Fs) (ip : String) (refs : Option (List String))
        (dat : String),
        validateImagePath fs ip = .ok () → fs.read ip = .ok dat →
        provider m (.parts (ContentPart.inlineData dat (getMimeType ip)
            :: (processRefs fs (refs.getD [])).1
            ++ [ContentPart.text prompt])) = .ok resp →
        (editImage fs names provider st ip prompt refs model).1
          = .ok (buildImageResponse names resp "edited" prompt
              (processRefs fs (refs.getD [])).2 st).1
        ∧ (editImage fs names provider st ip prompt refs
            model).2.lastImagePath = st.lastImagePath) := by
  have hgen : generateImage names provider st prompt model
      = (.ok (buildImageResponse names resp "generated" prompt [] st).1,
         (buildImageResponse names resp "generated" prompt [] st).2) := by
    unfold generateImage
    rw [hconf, hm]
    dsimp only
    rw [hprov]
    simp
  obtain ⟨w1, w2, w3⟩ :=
    buildImageResponse_no_image names resp "generated" prompt [] st hni
  refine ⟨?_, ?_, w1, w3, ?_, ?_⟩
  · rw [hgen]
  · rw [hgen]
    exact w2
  · intro pfx pt ws
    exact buildImageResponse_no_image names resp pfx pt ws st hni
  · intro fs ip refs dat hval hread hprov2
    have hedit : editImage fs names provider st ip prompt refs model
        = (.ok (buildImageResponse names resp "edited" prompt
              (processRefs fs (refs.getD [])).2 st).1,
           (buildImageResponse names resp "edited" prompt
              (processRefs fs (refs.getD [])).2 st).2) := by
      unfold editImage
      rw [hconf, hm, hval, hread]
      dsimp only
      rw [hprov2]
      simp
    obtain ⟨v1, v2, v3⟩ :=
      buildImageResponse_no_image names resp "edited" prompt
        (processRefs fs (refs.getD [])).2 st hni
    constructor
    · rw [hedit]
    · rw [hedit]
      exact v2

/-- C7 witness: a concrete text-only provider response on a configured
server. -/
theorem text_only_response_no_artifacts_witness :
    (generateImage namesW provOK stEnv "hi" none).1
      = .ok (buildImageResponse namesW respTextOnly "generated" "hi" []
          stEnv).1
    ∧ (generateImage namesW provOK stEnv "hi" none).2.lastImagePath
      = stEnv.lastImagePath
    ∧ (buildImageResponse namesW respTextOnly "generated" "hi" []
        stEnv).1.savedFiles = [] :=
  ⟨(text_only_response_no_artifacts namesW provOK stEnv "hi" none
      DEFAULT_MODEL respTextOnly rfl rfl rfl rfl).1,
   (text_only_response_no_artifacts namesW provOK stEnv "hi" none
      DEFAULT_MODEL respTextOnly rfl rfl rfl rfl).2.1,
   (text_only_response_no_artifacts namesW provOK stEnv "hi" none
      DEFAULT_MODEL respTextOnly rfl rfl rfl rfl).2.2.1⟩

theorem processRefs_eq_filterMap (fs : Fs) (rs : List String) :
    processRefs fs rs
      = (rs.filterMap (fun r => (loadRef fs r).toOption),
         rs.filterMap (fun r =>
           match loadRef fs r with
           | .ok _ => none
           | .error msg => some (skippedWarning r msg))) := by
  induction rs with
  | nil => rfl
  | cons r rest ih =>
      unfold processRefs
      rw [ih]
      cases h : loadRef fs r <;>
        simp [List.filterMap_cons, h, Except.toOption]

/-- C2: once the primary image of an edit call passes validation and loads,
each reference image is validated and loaded independently in input order;
a failing reference is non-fatal — it is dropped from the request and
contributes exactly one warning of the form
`Skipped reference image "<path>": <reason>`, in input order — and the part
sequence sent to the provider is exactly the primary image's data with its
detected mime type first, the successfully loaded references in input
order, and the prompt text part last. -/
theorem editImage_reference_degradation (fs : Fs) (names : Nat → String)
    (provider : Provider) (st : NanoState) (imagePath prompt : String)
    (rs : List String) (model : Option String) (m dat : String)
    (hconf : ensureConfigured st = true)
    (hm : resolveModel model = .ok m)
    (hval : validateImagePath fs imagePath = .ok ())
    (hread : fs.read imagePath = .ok dat) :
    processRefs fs rs
      = (rs.filterMap (fun r => (loadRef fs r).toOption),
         rs.filterMap (fun r =>
           match loadRef fs r with
           | .ok _ => none
           | .error msg => some (skippedWarning r msg)))
    ∧ editImage fs names provider st imagePath prompt (some rs) model
      = (match provider m (.parts (ContentPart.inlineData dat
            (getMimeType imagePath) :: (processRefs fs rs).1
            ++ [ContentPart.text prompt])) with
         | .error msg =>
             (.error (internalErr ("Failed to edit image: " ++ msg)), st)
         | .ok resp =>
             (.ok (buildImageResponse names resp "edited" prompt
                (processRefs fs rs).2 st).1,
              (buildImageResponse names resp "edited" prompt
                (processRefs fs rs).2 st).2)) := by
  refine ⟨processRefs_eq_filterMap fs rs, ?_⟩
  unfold editImage
  rw [hconf, hm, hval, hread]
  simp

/-- C2 witness: with a valid primary, one valid reference and one missing
reference, the loop keeps exactly the valid reference part and produces
exactly the one expected warning string. -/
theorem editImage_reference_degradation_witness :
    processRefs fsW ["/r1.png", "/missing.png"]
      = (["/r1.png", "/missing.png"].filterMap
           (fun r => (loadRef fsW r).toOption),
         ["/r1.png", "/missing.png"].filterMap (fun r =>
           match loadRef fsW r with
           | .ok _ => none
           | .error msg => some (skippedWarning r msg)))
    ∧ processRefs fsW ["/r1.png", "/missing.png"]
      = ([ContentPart.inlineData "UlJS" "image/png"],
         [skippedWarning "/missing.png"
           (errMessage (invalidParams (notFoundMsg "/missing.png")))]) :=
  ⟨(editImage_reference_degradation fsW namesW provOK stEnv "/a.png" "p"
      ["/r1.png", "/missing.png"] none DEFAULT_MODEL "QUFB"
      rfl rfl rfl rfl).1,
   ((editImage_reference_degradation fsW namesW provOK stEnv "/a.png" "p"
      ["/r1.png", "/missing.png"] none DEFAULT_MODEL "QUFB"
      rfl rfl rfl rfl).1).trans (by rfl)⟩

end NanoBanana
